import Mathlib

/-!
Verification of the Crypto-API repository (a convenience wrapper around a
chat-bot SDK): the `Callback` message facade, the `Session` command router,
the send operations, and the `Database` user store are shallowly embedded
below, translated from `src/callback.py`, `src/database.py` and
`src/error.py`.  External collaborators (the bot transport and the SQL
driver) are modelled as an explicit call log and an explicit table state.
-/

/- ## Python string primitives
Translations of the Python string operations used by the source:
`str.strip()`, `str.startswith(p)`, `s[n:]` (character slicing), `len`,
and no-argument `str.split()` (split on whitespace runs, dropping empties). -/

def pyStripChars (l : List Char) : List Char :=
  ((l.dropWhile Char.isWhitespace).reverse.dropWhile Char.isWhitespace).reverse

def pyStrip (s : String) : String := String.mk (pyStripChars s.data)

def pyStartsWith (s p : String) : Bool := p.data.isPrefixOf s.data

def pyDrop (s : String) (n : Nat) : String := String.mk (s.data.drop n)

def pyLen (s : String) : Nat := s.data.length

def pyWordsAux : List Char → List Char → List String
  | [], acc => if acc.isEmpty then [] else [String.mk acc.reverse]
  | c :: cs, acc =>
    if c.isWhitespace then
      if acc.isEmpty then pyWordsAux cs [] else String.mk acc.reverse :: pyWordsAux cs []
    else pyWordsAux cs (c :: acc)

def pySplit (s : String) : List String := pyWordsAux s.data []

/- ## Error taxonomy (src/error.py)
Each variant carries its numeric code; transport and driver failures are
re-raised as the generic `runtimeError` wrapper, mirroring the
`except Exception as e: raise RuntimeError(e)` pattern of the source. -/

inductive PyErr where
  | emptyContent (code : Nat)
  | contentType (code : Nat)
  | incompatibility (code : Nat)
  | bindCommand (code : Nat)
  | runtimeError (msg : String)
  deriving DecidableEq

/- ## Message variants (delivered by the transport SDK)
Only the fields the embedded code reads are modelled. -/

structure ChannelMsg where
  channel_id : String
  id : String
  author_id : String
  content : String
  deriving DecidableEq

structure GroupMsg where
  group_openid : String
  id : String
  member_openid : String
  content : String
  deriving DecidableEq

structure C2CMsg where
  id : String
  user_openid : String
  content : String
  deriving DecidableEq

inductive MsgObj where
  | message (m : ChannelMsg)
  | group (m : GroupMsg)
  | c2c (m : C2CMsg)
  deriving DecidableEq

/-- Inputs to `Callback.__init__`: one of the three recognized variants, or
any other value (`other`), which the constructor must reject. -/
inductive RawMsg where
  | message (m : ChannelMsg)
  | group (m : GroupMsg)
  | c2c (m : C2CMsg)
  | other (desc : String)
  deriving DecidableEq

/- ## Callback facade (src/callback.py, class Callback) -/

structure Callback where
  msg_type : String
  msg_obj : MsgObj
  deriving DecidableEq

/-- The TYPE dictionary of `Callback.__init__`: concrete variant name to
audience tag. -/
def tagOf : MsgObj → String
  | .message _ => "channel"
  | .group _ => "group"
  | .c2c _ => "c2c"

/-- `Callback.__init__`: reject anything that is not one of the three
recognized variants with `ContentTypeError(400)`; otherwise store the
variant and the audience tag obtained from the TYPE dictionary. -/
def callbackInit : RawMsg → Except PyErr Callback
  | .message m => .ok ⟨tagOf (MsgObj.message m), MsgObj.message m⟩
  | .group m => .ok ⟨tagOf (MsgObj.group m), MsgObj.group m⟩
  | .c2c m => .ok ⟨tagOf (MsgObj.c2c m), MsgObj.c2c m⟩
  | .other _ => .error (.contentType 400)

def mkChannel (m : ChannelMsg) : Callback := ⟨tagOf (MsgObj.message m), MsgObj.message m⟩

def mkGroup (m : GroupMsg) : Callback := ⟨tagOf (MsgObj.group m), MsgObj.group m⟩

def mkC2c (m : C2CMsg) : Callback := ⟨tagOf (MsgObj.c2c m), MsgObj.c2c m⟩

/-- `Callback.user_openid`: variant-specific sender id. -/
def Callback.user_openid (cb : Callback) : String :=
  match cb.msg_obj with
  | .message m => m.author_id
  | .group m => m.member_openid
  | .c2c m => m.user_openid

def MsgObj.contentRaw : MsgObj → String
  | .message m => m.content
  | .group m => m.content
  | .c2c m => m.content

/-- `Callback.content`: the wrapped message content, stripped. -/
def Callback.content (cb : Callback) : String := pyStrip cb.msg_obj.contentRaw

/-- `Callback.command(prefix, sep_params)`: when the stripped content starts
with the given identifier and splitting is enabled, return the
whitespace-split argument list with the identifier removed; otherwise return
the stripped content string unchanged. -/
def Callback.command (cb : Callback) (p : String) (sep_params : Bool) :
    Sum String (List String) :=
  let message := pyStrip cb.msg_obj.contentRaw
  if pyStartsWith message p && sep_params then
    Sum.inr (pySplit (pyStrip (pyDrop message (pyLen p))))
  else
    Sum.inl message

/- ## Command router (src/callback.py, class Session and Callback.reduce)
A bound user function is an effectful callable; effects are made explicit by
threading a state of type `S` (the invocation log of a test double lives
there).  The `params` keyword receives either the split argument list or a
string, mirroring `Union[str, List[str]]`. -/

inductive Params where
  | str (s : String)
  | list (l : List String)
  deriving DecidableEq

/-- The assignment `kwargs[params] = cmd or str-empty` of the wrapper: an
empty parse list is replaced by the empty string (Python truthiness). -/
def pyParamsOr (cmd : List String) : Params :=
  if cmd.isEmpty then Params.str ("") else Params.list cmd

/-- One parse attempt of the wrapper body: `callback.command(prefix + command)`
succeeds exactly when it returns a list (`isinstance(cmd, list)`). -/
def parseOk (cb : Callback) (pc : String) : Option (List String) :=
  match cb.command pc true with
  | Sum.inr l => some l
  | Sum.inl _ => none

/-- The inner `for command in commands` loop of the wrapper, for one fixed
identifier `p`: first successful parse wins. -/
def bindInner (cb : Callback) (p : String) : List String → Option (List String)
  | [] => none
  | c :: rest =>
    match parseOk cb (p ++ c) with
    | some l => some l
    | none => bindInner cb p rest

/-- The outer `for prefix in prefixes` loop of the wrapper. -/
def bindOuter (cb : Callback) (commands : List String) : List String → Option (List String)
  | [] => none
  | p :: rest =>
    match bindInner cb p commands with
    | some l => some l
    | none => bindOuter cb commands rest

/-- The wrapper registered by `Session.bind(*commands, prefixes, limitation)`:
reject when the audience tag is restricted; otherwise run the two nested
loops and, on the first successful parse, invoke the user function with the
`params` value and return its outcome; with no successful parse return
`false`.  (The `BindCommandError` paths for a missing or mis-typed `msg_obj`
keyword do not arise here because the callback argument is passed directly.) -/
def bindWrapper {S : Type} (commands prefixes limitation : List String)
    (func : Callback → Params → S → Bool × S) (cb : Callback) (s : S) : Bool × S :=
  if limitation.contains cb.msg_type then (false, s)
  else
    match bindOuter cb commands prefixes with
    | some cmd => func cb (pyParamsOr cmd) s
    | none => (false, s)

/-- `Session`: the ordered `_bind_function` list. -/
structure Session (S : Type) where
  bind_function : List (Callback → S → Bool × S)

def Session.get_bind {S : Type} (sess : Session S) : List (Callback → S → Bool × S) :=
  sess.bind_function

/-- `Session.bind` as a registration step: append the wrapper built from the
given commands, prefixes and limitation around the user function. -/
def Session.bind {S : Type} (sess : Session S) (commands prefixes limitation : List String)
    (func : Callback → Params → S → Bool × S) : Session S :=
  ⟨sess.bind_function ++ [bindWrapper commands prefixes limitation func]⟩

/-- `Callback.reduce`: walk the handler list in order; the first invocation
with a truthy outcome short-circuits with `true`; otherwise `false`.  (In the
source every registered element is a callable, so the `isinstance(func,
Callable)` guard always passes.) -/
def reduce {S : Type} : List (Callback → S → Bool × S) → Callback → S → Bool × S
  | [], _, s => (false, s)
  | f :: rest, cb, s =>
    match f cb s with
    | (true, s2) => (true, s2)
    | (false, s2) => reduce rest cb s2

/- ## Transport calls and send operations
The BotAPI collaborator is modelled by the list of calls a send operation
issues, in order; an operation that raises before reaching the transport
produces an empty list. -/

inductive ApiCall where
  | post_message (channel_id : String) (content : String) (msg_id : String)
  | post_group_message (group_openid : String) (msg_type : Nat) (content : String)
      (msg_id : String) (msg_seq : Nat)
  | post_c2c_message (openid : String) (msg_type : Nat) (content : String)
      (msg_id : String) (msg_seq : Nat)
  | post_group_file (group_openid : String) (file_type : Nat) (url : String)
  | post_c2c_file (openid : String) (file_type : Nat) (url : String)
  deriving DecidableEq

/-- `Callback.send`: reject empty content with `EmptyContentError(200)` before
anything else; otherwise issue the single variant-specific transport call and
return the (200, success) tuple. -/
def send (cb : Callback) (content : String) (seq : Nat) :
    Except PyErr (Nat × String) × List ApiCall :=
  if pyLen content = 0 then (.error (.emptyContent 200), [])
  else
    match cb.msg_obj with
    | .message m => (.ok (200, "发送成功"), [ApiCall.post_message m.channel_id content m.id])
    | .group m =>
      (.ok (200, "发送成功"), [ApiCall.post_group_message m.group_openid 0 content m.id seq])
    | .c2c m =>
      (.ok (200, "发送成功"), [ApiCall.post_c2c_message m.user_openid 0 content m.id seq])

/-- `Callback._send_media`: on the channel variant, media types 2 and 3 raise
`IncompatibilityError(500)`; any other media type reaches the
`post_message(..., image=url, ...)` call whose `url` argument is an undefined
name, so evaluating the arguments raises `NameError` — caught by the generic
handler and re-raised as `RuntimeError` — before the transport post is
issued.  On group and c2c variants the upload and the media message are two
successive transport calls. -/
def send_media (cb : Callback) (media_url : String) (media_type : Nat)
    (content : String) (seq : Nat) : Except PyErr Unit × List ApiCall :=
  match cb.msg_obj with
  | .message _ =>
    if media_type = 2 || media_type = 3 then
      (.error (.incompatibility 500), [])
    else
      (.error (.runtimeError ("NameError: name url is not defined")), [])
  | .group m =>
    (.ok (), [ApiCall.post_group_file m.group_openid media_type media_url,
              ApiCall.post_group_message m.group_openid 7 content m.id seq])
  | .c2c m =>
    (.ok (), [ApiCall.post_c2c_file m.user_openid media_type media_url,
              ApiCall.post_c2c_message m.user_openid 7 content m.id seq])

/-- `Callback.send_image`: rejects an empty caption with
`EmptyContentError(500)` before delegating to the media send with
media type 1. -/
def send_image (cb : Callback) (image_url : String) (content : String) (seq : Nat) :
    Except PyErr Unit × List ApiCall :=
  if pyLen content = 0 then (.error (.emptyContent 500), [])
  else send_media cb image_url 1 content seq

/-- `Callback.send_silk`: media type 3, empty attached content. -/
def send_silk (cb : Callback) (silk_url : String) (seq : Nat) :
    Except PyErr Unit × List ApiCall :=
  send_media cb silk_url 3 ("") seq

/-- `Callback.send_video`: media type 2, empty attached content. -/
def send_video (cb : Callback) (video_url : String) (seq : Nat) :
    Except PyErr Unit × List ApiCall :=
  send_media cb video_url 2 ("") seq

/- ## Definition-time default sequence numbers
In the source each send operation declares `seq: int = randint(...)`; Python
evaluates the default expression once, when the `def` statement runs, and
every later call that omits `seq` reuses that stored value.  `ModuleDefaults`
holds the values drawn at import time, one per operation. -/

structure ModuleDefaults where
  send_seq : Nat
  media_seq : Nat
  image_seq : Nat
  silk_seq : Nat
  video_seq : Nat
  deriving DecidableEq

/-- Calling `Callback.send` under Python default-argument semantics: an
omitted `seq` (`none`) falls back to the value stored at definition time. -/
def send_with_default (env : ModuleDefaults) (cb : Callback) (content : String)
    (seqArg : Option Nat) : Except PyErr (Nat × String) × List ApiCall :=
  send cb content (seqArg.getD env.send_seq)

/-- The `msg_seq` recorded by a group text send, read back from the call log. -/
def groupSeqOf : List ApiCall → Option Nat
  | ApiCall.post_group_message _ _ _ _ sq :: _ => some sq
  | _ => none

/- ## User store (src/database.py, class Database)
The MySQL collaborator is modelled as three in-memory tables; `AUTO_INCREMENT`
assigns `length + 1` as the next row id.  A SELECT against a table name that
does not exist is a driver failure, wrapped as `RuntimeError`. -/

structure DbRow where
  userid : Nat
  openid : String
  message_number : Nat
  channel_id : Option String
  group_id : Option String
  deriving DecidableEq

structure BaseUser where
  userid : Nat
  openid : String
  message_number : Nat
  channel_id : Option String
  group_id : Option String
  deriving DecidableEq

structure DbState where
  channelTable : List DbRow
  groupTable : List DbRow
  c2cTable : List DbRow
  deriving DecidableEq

def tableOf (db : DbState) : String → Option (List DbRow)
  | "channel" => some db.channelTable
  | "group" => some db.groupTable
  | "c2c" => some db.c2cTable
  | _ => none

/-- `cursor.fetchone()` after `SELECT ... WHERE openid = %s`: the first row
with the given open id. -/
def findRow : List DbRow → String → Option DbRow
  | [], _ => none
  | r :: rest, oid => if r.openid = oid then some r else findRow rest oid

def rowToUser (r : DbRow) : BaseUser :=
  ⟨r.userid, r.openid, r.message_number, r.channel_id, r.group_id⟩

/-- `Database.get_userinfo`: point lookup by open id in the table named by the
audience tag; `BaseUser(**query)` on a hit, `None` on a miss. -/
def get_userinfo (cb : Callback) (db : DbState) : Except PyErr (Option BaseUser) :=
  match tableOf db cb.msg_type with
  | none => .error (.runtimeError ("no such table"))
  | some rows => .ok ((findRow rows cb.user_openid).map rowToUser)

structure InsertOutcome where
  result : Except PyErr BaseUser
  db : DbState
  inserts : Nat

/-- `Database.insert_userinfo`: return the existing snapshot when the lookup
hits; otherwise insert one row with counter 1 and return a snapshot whose row
id is omitted (the `BaseUser` default 0).  The stored parent-context column is
included only when its value is truthy (a non-empty string), while the
returned snapshot always carries the extracted value.  For the c2c variant
the DB_TYPE extractor is the string literal None — not a callable — so
applying it raises `TypeError`, wrapped as `RuntimeError`, before any insert.
`inserts` counts the INSERT statements executed. -/
def insert_userinfo (cb : Callback) (db : DbState) : InsertOutcome :=
  match get_userinfo cb db with
  | .error e => ⟨.error e, db, 0⟩
  | .ok (some u) => ⟨.ok u, db, 0⟩
  | .ok none =>
    match cb.msg_obj with
    | .message m =>
      let coc := m.channel_id
      let row : DbRow := ⟨db.channelTable.length + 1, cb.user_openid, 1,
        if coc = "" then none else some coc, none⟩
      ⟨.ok ⟨0, cb.user_openid, 1, some coc, none⟩,
       { db with channelTable := db.channelTable ++ [row] }, 1⟩
    | .group m =>
      let coc := m.group_openid
      let row : DbRow := ⟨db.groupTable.length + 1, cb.user_openid, 1,
        none, if coc = "" then none else some coc⟩
      ⟨.ok ⟨0, cb.user_openid, 1, none, some coc⟩,
       { db with groupTable := db.groupTable ++ [row] }, 1⟩
    | .c2c _ =>
      ⟨.error (.runtimeError ("TypeError: str object is not callable")), db, 0⟩

def okSnap : Except PyErr BaseUser → Option BaseUser
  | .ok u => some u
  | .error _ => none

/- ## Declarative dispatch order (from the specification's words)
The specification describes the wrapper's search as the first successful
parse over each prefix crossed with each command, prefix outer, command
inner, in registration order; `orderedPairs`/`firstHit` state that order
directly, to be compared with the nested loops `bindOuter`/`bindInner`. -/

def orderedPairs (prefixes commands : List String) : List String :=
  match prefixes with
  | [] => []
  | p :: rest => commands.map (fun c => p ++ c) ++ orderedPairs rest commands

def firstHit (cb : Callback) : List String → Option (List String)
  | [] => none
  | pc :: rest =>
    match parseOk cb pc with
    | some l => some l
    | none => firstHit cb rest

/- ## Concrete fixtures used by instance conjuncts, witnesses and
counterexamples. -/

/-- A user function double that records the `params` value it was invoked
with and reports success. -/
def recParams : Callback → Params → List Params → Bool × List Params :=
  fun _ p s => (true, s ++ [p])

/-- A user function double that records a name in the invocation log and
reports success. -/
def userFn (tag : String) : Callback → Params → List String → Bool × List String :=
  fun _ _ s => (true, s ++ [tag])

def pingHandler : Callback → List String → Bool × List String :=
  bindWrapper ["ping"] ["/"] [] (userFn ("ping"))

def pongHandler : Callback → List String → Bool × List String :=
  bindWrapper ["pong"] ["/"] [] (userFn ("pong"))

/-- A session with handlers registered for ping then pong. -/
def sessionPingPong : Session (List String) :=
  Session.bind (Session.bind ⟨[]⟩ ["ping"] ["/"] [] (userFn ("ping")))
    ["pong"] ["/"] [] (userFn ("pong"))

def gPong : GroupMsg := ⟨"g1", "mid1", "u1", "/pong hi"⟩

def cbPong : Callback := mkGroup gPong

def gPing : GroupMsg := ⟨"g1", "mid2", "u2", "/ping"⟩

def cbPing : Callback := mkGroup gPing

def gHello : GroupMsg := ⟨"g1", "mid3", "u3", "hello"⟩

def cbHello : Callback := mkGroup gHello

def gEcho : GroupMsg := ⟨"g1", "mid4", "u4", "/echo hello world"⟩

def cbEcho : Callback := mkGroup gEcho

def chanM : ChannelMsg := ⟨"ch1", "cid1", "a1", "hi"⟩

def c2cM : C2CMsg := ⟨"xid1", "cu1", "hi"⟩

def db0 : DbState := ⟨[], [], []⟩

/-- A store that already holds the row for `gPong`'s sender. -/
def dbExisting : DbState := ⟨[], [⟨1, "u1", 1, none, some ("g1")⟩], []⟩

/- ## Helper lemmas -/

theorem firstHit_append (cb : Callback) (l1 l2 : List String) :
    firstHit cb (l1 ++ l2) =
      match firstHit cb l1 with
      | some l => some l
      | none => firstHit cb l2 := by
  induction l1 with
  | nil => simp [firstHit]
  | cons pc rest ih =>
    simp only [List.cons_append, firstHit]
    cases parseOk cb pc <;> simp [ih]

theorem bindInner_eq_firstHit (cb : Callback) (p : String) (commands : List String) :
    bindInner cb p commands = firstHit cb (commands.map (fun c => p ++ c)) := by
  induction commands with
  | nil => rfl
  | cons c rest ih =>
    simp only [List.map_cons, bindInner, firstHit]
    cases parseOk cb (p ++ c) <;> simp [ih]

theorem bindOuter_eq_firstHit (cb : Callback) (commands prefixes : List String) :
    bindOuter cb commands prefixes = firstHit cb (orderedPairs prefixes commands) := by
  induction prefixes with
  | nil => rfl
  | cons p rest ih =>
    simp only [bindOuter, orderedPairs, firstHit_append, bindInner_eq_firstHit]
    cases firstHit cb (commands.map fun c => p ++ c) <;> simp [ih]

theorem findRow_append_none (rows1 rows2 : List DbRow) (oid : String)
    (h : findRow rows1 oid = none) :
    findRow (rows1 ++ rows2) oid = findRow rows2 oid := by
  induction rows1 with
  | nil => simp
  | cons r rest ih =>
    by_cases hr : r.openid = oid
    · simp [findRow, hr] at h
    · simp only [findRow, List.cons_append, if_neg hr] at h ⊢
      exact ih h

theorem insert_read_path (cb : Callback) (db : DbState) (u : BaseUser)
    (h : get_userinfo cb db = Except.ok (some u)) :
    insert_userinfo cb db = ⟨Except.ok u, db, 0⟩ := by
  unfold insert_userinfo
  rw [h]

theorem insert_group_fresh (m : GroupMsg) (db : DbState)
    (h : get_userinfo (mkGroup m) db = Except.ok none) :
    insert_userinfo (mkGroup m) db =
      ⟨Except.ok ⟨0, m.member_openid, 1, none, some m.group_openid⟩,
       { db with groupTable := db.groupTable ++
          [⟨db.groupTable.length + 1, m.member_openid, 1, none,
            if m.group_openid = "" then none else some m.group_openid⟩] }, 1⟩ := by
  unfold insert_userinfo
  rw [h]
  rfl

theorem insert_channel_fresh (m : ChannelMsg) (db : DbState)
    (h : get_userinfo (mkChannel m) db = Except.ok none) :
    insert_userinfo (mkChannel m) db =
      ⟨Except.ok ⟨0, m.author_id, 1, some m.channel_id, none⟩,
       { db with channelTable := db.channelTable ++
          [⟨db.channelTable.length + 1, m.author_id, 1,
            if m.channel_id = "" then none else some m.channel_id, none⟩] }, 1⟩ := by
  unfold insert_userinfo
  rw [h]
  rfl

theorem insert_c2c_fresh (m : C2CMsg) (db : DbState)
    (h : get_userinfo (mkC2c m) db = Except.ok none) :
    insert_userinfo (mkC2c m) db =
      ⟨Except.error (PyErr.runtimeError ("TypeError: str object is not callable")), db, 0⟩ := by
  unfold insert_userinfo
  rw [h]
  rfl

theorem get_group_none_findRow (m : GroupMsg) (db : DbState)
    (h : get_userinfo (mkGroup m) db = Except.ok none) :
    findRow db.groupTable m.member_openid = none := by
  simp [get_userinfo, mkGroup, tagOf, tableOf, Callback.user_openid] at h
  exact h

theorem insert_group_second (m : GroupMsg) (db : DbState)
    (hne : m.group_openid ≠ "")
    (h : get_userinfo (mkGroup m) db = Except.ok none) :
    insert_userinfo (mkGroup m) ((insert_userinfo (mkGroup m) db).db) =
      ⟨Except.ok ⟨db.groupTable.length + 1, m.member_openid, 1, none, some m.group_openid⟩,
       (insert_userinfo (mkGroup m) db).db, 0⟩ := by
  have hfind := get_group_none_findRow m db h
  have hget : get_userinfo (mkGroup m) ((insert_userinfo (mkGroup m) db).db) =
      Except.ok (some ⟨db.groupTable.length + 1, m.member_openid, 1, none,
        some m.group_openid⟩) := by
    rw [insert_group_fresh m db h]
    simp [get_userinfo, mkGroup, tagOf, tableOf, Callback.user_openid,
      findRow_append_none _ _ _ hfind, findRow, rowToUser, hne]
  rw [insert_read_path _ _ _ hget]

/- ## Claim theorems -/

/-- C1 (amended): a handler entry registered via `Session.bind` returns false
without invoking the user function when the inbound audience tag is in the
limitation set; otherwise its nested loops realise the first successful parse
over each prefix crossed with each command, prefix outer and command inner,
in registration order; on the first successful parse it invokes the user
function with the parsed argument list when that list is non-empty and with
the empty string when the parse yields no arguments, returning the user
function's outcome; and it returns false without invoking the user function
when no prefix-command pair parses. -/
theorem bind_entry_dispatch (S : Type) (commands prefixes limitation : List String)
    (func : Callback → Params → S → Bool × S) (cb : Callback) (s : S) :
    (limitation.contains cb.msg_type = true →
        bindWrapper commands prefixes limitation func cb s = (false, s))
  ∧ bindOuter cb commands prefixes = firstHit cb (orderedPairs prefixes commands)
  ∧ (limitation.contains cb.msg_type = false →
      bindOuter cb commands prefixes = none →
        bindWrapper commands prefixes limitation func cb s = (false, s))
  ∧ (∀ cmd : List String, limitation.contains cb.msg_type = false →
      bindOuter cb commands prefixes = some cmd →
        bindWrapper commands prefixes limitation func cb s = func cb (pyParamsOr cmd) s) := by
  refine ⟨?_, bindOuter_eq_firstHit cb commands prefixes, ?_, ?_⟩
  · intro h
    unfold bindWrapper
    rw [h]
    rfl
  · intro h hnone
    unfold bindWrapper
    rw [h, hnone]
    rfl
  · intro cmd h hsome
    unfold bindWrapper
    rw [h, hsome]
    rfl

/-- C1 witness: the three guarded clauses applied at concrete inputs — a
group-restricted entry on a group callback, an entry with no matching pair,
and an entry whose first matching pair parses `hi`. -/
theorem bind_entry_dispatch_witness :
    bindWrapper ["pong"] ["/"] ["group"] recParams cbPong [] = (false, [])
  ∧ bindWrapper ["pong"] ["/"] [] recParams cbHello [] = (false, [])
  ∧ bindWrapper ["pong"] ["/"] [] recParams cbPong [] = recParams cbPong (pyParamsOr ["hi"]) [] :=
  ⟨(bind_entry_dispatch (List Params) ["pong"] ["/"] ["group"] recParams cbPong []).1
      (by decide),
   (bind_entry_dispatch (List Params) ["pong"] ["/"] [] recParams cbHello []).2.2.1
      (by decide) (by decide),
   (bind_entry_dispatch (List Params) ["pong"] ["/"] [] recParams cbPong []).2.2.2
      ["hi"] (by decide) (by decide)⟩

/-- C1 counterexample: on content matching the bare command (parse yields the
empty argument list), the wrapper invokes the user function with the empty
string, not with the parsed (empty) argument list, because of the
`cmd or str-empty` assignment. -/
theorem bind_entry_empty_params_cex :
    bindWrapper ["ping"] ["/"] [] recParams cbPing [] = (true, [Params.str ("")])
  ∧ Params.str ("") ≠ Params.list [] := ⟨by decide, by decide⟩

/-- C2: `Callback.reduce` walks the handler list in registration order: a
first handler whose invocation yields a truthy outcome makes the scan return
true at once, independent of the remaining handlers; a falsy first handler
reduces the scan to the rest; the empty scan returns false; and with handlers
registered for ping then pong, an inbound matching only pong invokes only the
second handler's user function (its log holds exactly the pong entry). -/
theorem reduce_first_match (S : Type) (f : Callback → S → Bool × S)
    (rest : List (Callback → S → Bool × S)) (cb : Callback) (s s2 : S) :
    (f cb s = (true, s2) → reduce (f :: rest) cb s = (true, s2))
  ∧ (f cb s = (false, s2) → reduce (f :: rest) cb s = reduce rest cb s2)
  ∧ reduce ([] : List (Callback → S → Bool × S)) cb s = (false, s)
  ∧ reduce (Session.get_bind sessionPingPong) cbPong [] = (true, ["pong"]) := by
  refine ⟨?_, ?_, rfl, by decide⟩
  · intro h
    simp [reduce, h]
  · intro h
    simp [reduce, h]

/-- C2 witness: the two guarded clauses at concrete inputs — a truthy single
handler short-circuits, a falsy handler hands over to the (empty) rest. -/
theorem reduce_first_match_witness :
    reduce [pongHandler] cbPong [] = (true, ["pong"])
  ∧ reduce [pingHandler] cbPong [] =
      reduce ([] : List (Callback → List String → Bool × List String)) cbPong [] :=
  ⟨(reduce_first_match (List String) pongHandler [] cbPong [] ["pong"]).1 (by decide),
   (reduce_first_match (List String) pingHandler [] cbPong [] []).2.1 (by decide)⟩

/-- C3 counterexample: `command` with identifier `/` and splitting enabled on
content `/echo hello world` does not return `[hello, world]` — the token
`echo` is part of the split remainder because only the one-character
identifier is removed. -/
theorem command_slash_cex :
    Callback.command cbEcho ("/") true ≠ Sum.inr ["hello", "world"] := by decide

/-- C3 (amended): `command` with identifier `/` and splitting enabled on
content `/echo hello world` returns `[echo, hello, world]`; the same content
with splitting disabled returns the untouched trimmed string; and content
`hello` with identifier `/` comes back unchanged (no match). -/
theorem command_parse_amended :
    Callback.command cbEcho ("/") true = Sum.inr ["echo", "hello", "world"]
  ∧ Callback.command cbEcho ("/") false = Sum.inl ("/echo hello world")
  ∧ Callback.command cbHello ("/") true = Sum.inl ("hello") :=
  ⟨by decide, by decide, by decide⟩

/-- C4 (amended): `insert_userinfo` is read-or-create. When the lookup hits,
the stored snapshot is returned unchanged with no insert. When it misses, a
group or channel callback performs exactly one insert of a row with counter 1
and returns a snapshot omitting the row id, while a c2c callback fails with a
wrapped runtime error (its context extractor is the string literal None, not
a callable) and performs no insert. Two successive calls with the same
external id perform exactly one underlying insert and return snapshots that
agree except on the row id: the first omits it (0), the second reports the
stored auto-increment id. -/
theorem insert_userinfo_read_or_create :
    (∀ (cb : Callback) (db : DbState) (u : BaseUser),
        get_userinfo cb db = Except.ok (some u) →
        insert_userinfo cb db = ⟨Except.ok u, db, 0⟩)
  ∧ (∀ (m : GroupMsg) (db : DbState),
        get_userinfo (mkGroup m) db = Except.ok none →
        insert_userinfo (mkGroup m) db =
          ⟨Except.ok ⟨0, m.member_openid, 1, none, some m.group_openid⟩,
           { db with groupTable := db.groupTable ++
              [⟨db.groupTable.length + 1, m.member_openid, 1, none,
                if m.group_openid = "" then none else some m.group_openid⟩] }, 1⟩)
  ∧ (∀ (m : ChannelMsg) (db : DbState),
        get_userinfo (mkChannel m) db = Except.ok none →
        insert_userinfo (mkChannel m) db =
          ⟨Except.ok ⟨0, m.author_id, 1, some m.channel_id, none⟩,
           { db with channelTable := db.channelTable ++
              [⟨db.channelTable.length + 1, m.author_id, 1,
                if m.channel_id = "" then none else some m.channel_id, none⟩] }, 1⟩)
  ∧ (∀ (m : C2CMsg) (db : DbState),
        get_userinfo (mkC2c m) db = Except.ok none →
        insert_userinfo (mkC2c m) db =
          ⟨Except.error (PyErr.runtimeError ("TypeError: str object is not callable")),
           db, 0⟩)
  ∧ (∀ (m : GroupMsg) (db : DbState), m.group_openid ≠ "" →
        get_userinfo (mkGroup m) db = Except.ok none →
        (insert_userinfo (mkGroup m) db).inserts = 1
        ∧ (insert_userinfo (mkGroup m) ((insert_userinfo (mkGroup m) db).db)).inserts = 0
        ∧ okSnap (insert_userinfo (mkGroup m) db).result =
            some ⟨0, m.member_openid, 1, none, some m.group_openid⟩
        ∧ okSnap (insert_userinfo (mkGroup m) ((insert_userinfo (mkGroup m) db).db)).result =
            some ⟨db.groupTable.length + 1, m.member_openid, 1, none,
              some m.group_openid⟩) := by
  refine ⟨insert_read_path, insert_group_fresh, insert_channel_fresh, insert_c2c_fresh, ?_⟩
  intro m db hne h
  refine ⟨?_, ?_, ?_, ?_⟩
  · rw [insert_group_fresh m db h]
  · rw [insert_group_second m db hne h]
  · rw [insert_group_fresh m db h]
    rfl
  · rw [insert_group_second m db hne h]
    rfl

/-- C4 witness: the five clauses at concrete inputs — an existing row is
returned untouched; fresh group, channel and c2c calls on the empty store;
and the two-successive-calls clause on the empty store. -/
theorem insert_userinfo_read_or_create_witness :
    insert_userinfo (mkGroup gPong) dbExisting =
      ⟨Except.ok ⟨1, "u1", 1, none, some ("g1")⟩, dbExisting, 0⟩
  ∧ insert_userinfo (mkGroup gPong) db0 =
      ⟨Except.ok ⟨0, "u1", 1, none, some ("g1")⟩,
       ⟨[], [⟨1, "u1", 1, none, some ("g1")⟩], []⟩, 1⟩
  ∧ insert_userinfo (mkChannel chanM) db0 =
      ⟨Except.ok ⟨0, "a1", 1, some ("ch1"), none⟩,
       ⟨[⟨1, "a1", 1, some ("ch1"), none⟩], [], []⟩, 1⟩
  ∧ insert_userinfo (mkC2c c2cM) db0 =
      ⟨Except.error (PyErr.runtimeError ("TypeError: str object is not callable")), db0, 0⟩
  ∧ ((insert_userinfo (mkGroup gPong) db0).inserts = 1
      ∧ (insert_userinfo (mkGroup gPong) ((insert_userinfo (mkGroup gPong) db0).db)).inserts = 0
      ∧ okSnap (insert_userinfo (mkGroup gPong) db0).result =
          some ⟨0, "u1", 1, none, some ("g1")⟩
      ∧ okSnap (insert_userinfo (mkGroup gPong)
            ((insert_userinfo (mkGroup gPong) db0).db)).result =
          some ⟨1, "u1", 1, none, some ("g1")⟩) :=
  ⟨insert_userinfo_read_or_create.1 (mkGroup gPong) dbExisting
      ⟨1, "u1", 1, none, some ("g1")⟩ rfl,
   insert_userinfo_read_or_create.2.1 gPong db0 rfl,
   insert_userinfo_read_or_create.2.2.1 chanM db0 rfl,
   insert_userinfo_read_or_create.2.2.2.1 c2cM db0 rfl,
   insert_userinfo_read_or_create.2.2.2.2 gPong db0 (by decide) rfl⟩

/-- C4 counterexample: on a fresh store the two successive calls for the same
group sender do not return an identical snapshot — the first omits the row id
(0), the second reports the stored auto-increment id (1). -/
theorem insert_userinfo_snapshot_differs_cex :
    okSnap (insert_userinfo (mkGroup gPong) db0).result ≠
      okSnap (insert_userinfo (mkGroup gPong)
        ((insert_userinfo (mkGroup gPong) db0).db)).result := by decide

/-- C5: for every callback of any audience kind, sending empty text content
fails with `EmptyContentError(200)` and issues no transport call at all. -/
theorem send_empty_content_rejected (cb : Callback) (seq : Nat) :
    send cb ("") seq = (Except.error (PyErr.emptyContent 200), ([] : List ApiCall)) := rfl

/-- C6: for every channel-audience callback, the audio send and the video
send fail with `IncompatibilityError(500)` and issue no transport call. -/
theorem channel_audio_video_incompatible (m : ChannelMsg) (u : String) (seq : Nat) :
    send_silk (mkChannel m) u seq =
      (Except.error (PyErr.incompatibility 500), ([] : List ApiCall))
  ∧ send_video (mkChannel m) u seq =
      (Except.error (PyErr.incompatibility 500), ([] : List ApiCall)) :=
  ⟨rfl, rfl⟩

/-- C7: constructing a `Callback` from each of the three recognized variants
yields the matching audience tag (channel, group, c2c), any other value is
rejected with `ContentTypeError(400)`, and every successfully constructed
callback carries the tag consistent with its wrapped variant. -/
theorem callback_variant_tags :
    (∀ m : ChannelMsg, callbackInit (RawMsg.message m) =
        Except.ok ⟨"channel", MsgObj.message m⟩)
  ∧ (∀ m : GroupMsg, callbackInit (RawMsg.group m) = Except.ok ⟨"group", MsgObj.group m⟩)
  ∧ (∀ m : C2CMsg, callbackInit (RawMsg.c2c m) = Except.ok ⟨"c2c", MsgObj.c2c m⟩)
  ∧ (∀ d : String, callbackInit (RawMsg.other d) = Except.error (PyErr.contentType 400))
  ∧ (∀ (raw : RawMsg) (cb : Callback), callbackInit raw = Except.ok cb →
        cb.msg_type = tagOf cb.msg_obj) := by
  refine ⟨fun m => rfl, fun m => rfl, fun m => rfl, fun d => rfl, ?_⟩
  intro raw cb h
  cases raw with
  | message m => injection h with h2; subst h2; rfl
  | group m => injection h with h2; subst h2; rfl
  | c2c m => injection h with h2; subst h2; rfl
  | other d => exact Except.noConfusion h

/-- C7 witness: the consistency clause applied to a concrete construction. -/
theorem callback_variant_tags_witness :
    Callback.msg_type ⟨"group", MsgObj.group gPong⟩ = tagOf (MsgObj.group gPong) :=
  callback_variant_tags.2.2.2.2 (RawMsg.group gPong) ⟨"group", MsgObj.group gPong⟩ rfl

/-- C8: on a channel-audience callback the media send with media type 1
always fails with the wrapped runtime error (the channel branch evaluates the
undefined name `url`) and issues no transport call; consequently `send_image`
never issues a transport call on a channel callback — a non-empty caption
reaches the broken channel branch, an empty caption is stopped even earlier
by the caption guard. -/
theorem channel_image_send_no_transport (m : ChannelMsg) (u c : String) (seq : Nat) :
    send_media (mkChannel m) u 1 c seq =
      (Except.error (PyErr.runtimeError ("NameError: name url is not defined")),
       ([] : List ApiCall))
  ∧ (send_image (mkChannel m) u c seq).2 = []
  ∧ (pyLen c ≠ 0 → send_image (mkChannel m) u c seq =
      (Except.error (PyErr.runtimeError ("NameError: name url is not defined")), []))
  ∧ (pyLen c = 0 → send_image (mkChannel m) u c seq =
      (Except.error (PyErr.emptyContent 500), [])) := by
  refine ⟨rfl, ?_, ?_, ?_⟩
  · by_cases hc : pyLen c = 0 <;> simp [send_image, hc, send_media, mkChannel, tagOf]
  · intro hc
    simp [send_image, hc, send_media, mkChannel, tagOf]
  · intro hc
    simp [send_image, hc]

/-- C8 witness: the two guarded clauses at a concrete channel callback, with
a non-empty and with an empty caption. -/
theorem channel_image_send_no_transport_witness :
    send_image (mkChannel chanM) ("http://img") ("cap") 5 =
      (Except.error (PyErr.runtimeError ("NameError: name url is not defined")), [])
  ∧ send_image (mkChannel chanM) ("http://img") ("") 5 =
      (Except.error (PyErr.emptyContent 500), []) :=
  ⟨(channel_image_send_no_transport chanM ("http://img") ("cap") 5).2.2.1 (by decide),
   (channel_image_send_no_transport chanM ("http://img") ("") 5).2.2.2 (by decide)⟩

/-- C9: `send_image` with the caption omitted (its default, the empty string)
fails with `EmptyContentError(500)` before any transport call, for every
callback — the caption is not optional in the code, contradicting the
declared default and the documented image-only use. -/
theorem send_image_rejects_empty_caption (cb : Callback) (u : String) (seq : Nat) :
    send_image cb u ("") seq =
      (Except.error (PyErr.emptyContent 500), ([] : List ApiCall)) := rfl

/-- C10: under Python default-argument semantics the `seq` default of `send`
is the single value drawn once at definition time: any two calls that omit
`seq` stamp that same stored value into their transport call, while an
explicit argument overrides it. -/
theorem default_seq_single_value (env : ModuleDefaults) (g1 g2 : GroupMsg)
    (c1 c2 : String) (s : Nat) (h1 : pyLen c1 ≠ 0) (h2 : pyLen c2 ≠ 0) :
    groupSeqOf (send_with_default env (mkGroup g1) c1 none).2 = some env.send_seq
  ∧ groupSeqOf (send_with_default env (mkGroup g2) c2 none).2 = some env.send_seq
  ∧ groupSeqOf (send_with_default env (mkGroup g1) c1 (some s)).2 = some s := by
  refine ⟨?_, ?_, ?_⟩ <;>
    simp [send_with_default, send, h1, h2, mkGroup, tagOf, groupSeqOf]

/-- C10 witness: a concrete definition-time draw of 7 is shared by two
distinct omitted-seq sends and overridden by an explicit 42. -/
theorem default_seq_single_value_witness :
    groupSeqOf (send_with_default ⟨7, 8, 9, 10, 11⟩ (mkGroup gPong) ("a") none).2 = some 7
  ∧ groupSeqOf (send_with_default ⟨7, 8, 9, 10, 11⟩ (mkGroup gHello) ("b") none).2 = some 7
  ∧ groupSeqOf (send_with_default ⟨7, 8, 9, 10, 11⟩ (mkGroup gPong) ("a") (some 42)).2 =
      some 42 :=
  default_seq_single_value ⟨7, 8, 9, 10, 11⟩ gPong gHello ("a") ("b") 42
    (by decide) (by decide)
